import Mathlib

/-!
Verification of the warp HTTP server in `src/main.rs`.

The program builds three warp route filters (`hello`, `health`, `info`),
combines them with `or`, wraps the result in `warp::cors().allow_any_origin()`
and serves the composite on `0.0.0.0:8001`.  We shallow-embed the request
handling pipeline: requests are records of method, path segments, query,
headers and body; warp path filters are functions consuming a prefix of the
segment list; `warp::reply::json` is a serde_json-compatible serializer.

Library semantics embedded here (warp 0.3 / serde_json, as used by the
source):
* `warp::path(SEG)` consumes exactly one matching path segment and succeeds
  even when further segments remain; only `warp::path::end` demands that the
  whole path has been consumed.  The `path!` macro appends `end` itself.
* No method filter (`warp::get()` etc.) appears in the source, so the route
  filters never inspect the request method.
* `warp::cors().allow_any_origin()` adds an `access-control-allow-origin`
  header echoing the request's `origin` header to every successful reply of
  the wrapped filter; a request without an `origin` header passes through
  unchanged, and a rejection (the 404 path) is propagated without CORS
  headers.  OPTIONS preflight interception by the CORS layer is outside the
  modelled fragment; the embedded method type therefore covers the ordinary
  request methods.
* `#[derive(Serialize)]` serializes struct fields in declaration order;
  `serde_json` string escaping is reproduced character by character.
-/

namespace RustProject

/-- HTTP request methods relevant to the embedded fragment.  The source
installs no method filter, so the three routes never look at this field.
(OPTIONS is excluded: warp's CORS layer gives OPTIONS preflights a special
reply before routing, which is outside the modelled fragment.) -/
inductive Method where
  | GET
  | POST
  | PUT
  | DELETE
  | PATCH
  | HEAD
deriving DecidableEq, Repr

/-- An HTTP request as seen by the warp filters: method, path split into
segments, raw query string, headers (hyper lowercases header names) and
body. -/
structure Request where
  method : Method
  segments : List String
  query : String
  headers : List (String × String)
  body : String
deriving DecidableEq, Repr

/-- An HTTP response: status code, body bytes (as a string) and headers. -/
structure Response where
  status : Nat
  body : String
  headers : List (String × String)
deriving DecidableEq, Repr

/-- Accumulator pass for `splitPath`: split a character list on `/`,
dropping empty segments; `acc` holds the current segment reversed. -/
def splitPathAux : List Char → List Char → List String
  | [], acc => if acc.isEmpty then [] else [String.mk acc.reverse]
  | c :: cs, acc =>
      if c = '/' then
        if acc.isEmpty then splitPathAux cs []
        else String.mk acc.reverse :: splitPathAux cs []
      else splitPathAux cs (c :: acc)

/-- Split a request path into its non-empty segments, as warp's path cursor
does ("/" has no segments, "/health/extra" has two). -/
def splitPath (p : String) : List String :=
  splitPathAux p.data []

/-- Case-sensitive lookup of a header value; header names are stored
lowercase, as hyper normalizes them. -/
def getHeader (name : String) (hs : List (String × String)) : Option String :=
  (hs.find? (fun h => h.1 = name)).map (fun h => h.2)

/-- `warp::path(p)`: consume one path segment equal to `p`; succeed with the
remaining segments.  Note that remaining segments are allowed: the filter
does not require the path to end. -/
def pathSeg (p : String) : List String → Option (List String)
  | [] => none
  | s :: rest => if s = p then some rest else none

/-- `warp::path::end()`: succeed exactly when no path segments remain. -/
def pathEnd : List String → Option (List String) :=
  fun segs => if segs = [] then some [] else none

/-- The `ApiResponse` struct of `main.rs`: `\x7b message: String, status:
String \x7d` with `#[derive(Serialize)]`. -/
structure ApiResponse where
  message : String
  status : String
deriving DecidableEq, Repr

/-- Lowercase hex digit, for serde_json's `\u00XX` control-character
escapes. -/
def hexDigit (n : Nat) : Char :=
  if n < 10 then Char.ofNat (48 + n) else Char.ofNat (87 + n)

/-- serde_json escaping of one character inside a JSON string literal. -/
def escapeJsonChar (c : Char) : String :=
  if c = '\"' then "\\\""
  else if c = '\\' then "\\\\"
  else if c = '\n' then "\\n"
  else if c = '\r' then "\\r"
  else if c = '\t' then "\\t"
  else if c.toNat = 8 then "\\b"
  else if c.toNat = 12 then "\\f"
  else if c.toNat < 32 then
    "\\u00" ++ String.mk [hexDigit (c.toNat / 16), hexDigit (c.toNat % 16)]
  else String.mk [c]

/-- serde_json serialization of a string: surrounding quotes plus escaped
characters. -/
def escapeJsonString (s : String) : String :=
  "\"" ++ String.join (s.data.map escapeJsonChar) ++ "\""

/-- serde_json serialization of `ApiResponse`: derived `Serialize` emits the
fields in declaration order, `message` then `status`, in compact form. -/
def serializeApiResponse (r : ApiResponse) : String :=
  "\x7b\"message\":" ++ escapeJsonString r.message ++
    ",\"status\":" ++ escapeJsonString r.status ++ "\x7d"

/-- Scalar JSON values occurring in the `serde_json::json!` document of the
info route: strings and integers. -/
inductive JsonScalar where
  | jstr (s : String)
  | jint (n : Int)
deriving DecidableEq, Repr

/-- serde_json serialization of a scalar value. -/
def serializeScalar : JsonScalar → String
  | .jstr s => escapeJsonString s
  | .jint n => toString n

/-- Modelled from the spec: compact serde_json serialization of a one-level
JSON object with the fields kept in the order of the field list.  The
repository's Cargo.toml (which decides, via serde_json feature flags,
whether `serde_json::Map` preserves insertion order) is not under `src/`;
the spec fixes the serialized key order to the order the `json!` literal
lists, so the embedded map preserves insertion order. -/
def serializeObj (fs : List (String × JsonScalar)) : String :=
  "\x7b" ++
    String.intercalate ","
      (fs.map (fun f => escapeJsonString f.1 ++ ":" ++ serializeScalar f.2)) ++
    "\x7d"

/-- The `ApiResponse` literal of the `hello` handler. -/
def helloApiResponse : ApiResponse :=
  { message := "Hello from Rust Docker container!", status := "success" }

/-- The `ApiResponse` literal of the `health` handler. -/
def healthApiResponse : ApiResponse :=
  { message := "Service is healthy", status := "ok" }

/-- The `serde_json::json!` document of the `info` handler, fields in source
order. -/
def infoValue : List (String × JsonScalar) :=
  [ ("service", .jstr "rust-project")
  , ("version", .jstr "0.1.0")
  , ("description", .jstr "Rust web service running in Docker")
  , ("author", .jstr "Abdulwahed")
  , ("port", .jint 8001) ]

/-- Body produced by `warp::reply::json` in the `hello` handler. -/
def helloBody : String := serializeApiResponse helloApiResponse

/-- Body produced by `warp::reply::json` in the `health` handler. -/
def healthBody : String := serializeApiResponse healthApiResponse

/-- Body produced by `warp::reply::json` in the `info` handler. -/
def infoBody : String := serializeObj infoValue

/-- The `hello` route: `warp::path::end().map(..)` — matches the empty path
and replies with the hello JSON. -/
def helloFilter (segs : List String) : Option String :=
  (pathEnd segs).map (fun _ => helloBody)

/-- The `health` route: `warp::path("health").map(..)` — consumes one
segment `health` (with no `end`, so trailing segments are accepted) and
replies with the health JSON. -/
def healthFilter (segs : List String) : Option String :=
  (pathSeg "health" segs).map (fun _ => healthBody)

/-- The `info` route: `warp::path!("api" / "info").map(..)` — the macro
chains `path "api"`, `path "info"` and `path::end`, then replies with the
info JSON. -/
def infoFilter (segs : List String) : Option String :=
  (((pathSeg "api" segs).bind (pathSeg "info")).bind pathEnd).map
    (fun _ => infoBody)

/-- `hello.or(health).or(info)`: try the filters in order on the same
segments, first success wins. -/
def routesFilter (segs : List String) : Option String :=
  ((helloFilter segs).orElse (fun _ => healthFilter segs)).orElse
    (fun _ => infoFilter segs)

/-- `warp::cors().allow_any_origin()` on a successful reply: when the
request carried an `origin` header, append `access-control-allow-origin`
echoing that origin; otherwise the reply passes through untouched. -/
def applyCors (origin : Option String) (r : Response) : Response :=
  match origin with
  | some o =>
      { r with headers := r.headers ++ [("access-control-allow-origin", o)] }
  | none => r

/-- The served pipeline: run the route filters on the request's path; a
match yields a 200 JSON reply passed through the CORS wrapper, a rejection
becomes warp's default 404 (no CORS headers, body contract undefined —
embedded as empty). -/
def serve (req : Request) : Response :=
  match routesFilter req.segments with
  | some body =>
      applyCors (getHeader "origin" req.headers)
        { status := 200, body := body
        , headers := [("content-type", "application/json")] }
  | none => { status := 404, body := "", headers := [] }

/-- The per-request step of the server: the source keeps no state across
requests (no shared mutable data is captured by any handler closure), so
the state type is trivial and the step returns it unchanged. -/
def serverStep (s : Unit) (req : Request) : Unit × Response :=
  (s, serve req)

/-- Process a sequence of requests through the stateful step, collecting
the responses in order. -/
def processRequests (s : Unit) : List Request → List Response
  | [] => []
  | r :: rs =>
      let step := serverStep s r
      step.2 :: processRequests step.1 rs

/-- The socket address computed by `main` for `warp::serve(..).bind(..)`:
a compiled-in constant, a function of neither the process environment nor
the command line (neither is read anywhere in `main.rs`). -/
def bindAddr (_env : List (String × String)) (_argv : List String) :
    (Nat × Nat × Nat × Nat) × Nat :=
  ((0, 0, 0, 0), 8001)

/-- The lines `main` prints to standard output before serving, in order:
one address line, one header line, three endpoint lines. -/
def startupBanner : List String :=
  [ "🚀 Server starting on http://0.0.0.0:8001"
  , "📍 Endpoints:"
  , "   GET /        - Welcome message"
  , "   GET /health  - Health check"
  , "   GET /api/info - Service information" ]

/-! ## Helper lemmas -/

/-- The CORS wrapper never changes the response status. -/
theorem applyCors_status (o : Option String) (r : Response) :
    (applyCors o r).status = r.status := by
  cases o <;> rfl

/-- The CORS wrapper never changes the response body. -/
theorem applyCors_body (o : Option String) (r : Response) :
    (applyCors o r).body = r.body := by
  cases o <;> rfl

/-- The response at position `i` of a processed trace is `serve` of the
request at position `i`: the trivial server state influences nothing. -/
theorem processRequests_get (rs : List Request) (i : Nat) :
    (processRequests () rs)[i]? = (rs[i]?).map serve := by
  induction rs generalizing i with
  | nil => simp [processRequests]
  | cons r rest ih =>
      cases i with
      | zero => simp [processRequests, serverStep]
      | succ n => simp [processRequests, serverStep, ih]

end RustProject

namespace RustProject

/-! ## Claim theorems -/

/-- C1: for every request with method GET and the empty path `/`, the server
responds with status 200 and a body that is exactly the JSON text
`\x7b"message":"Hello from Rust Docker container!","status":"success"\x7d`,
keys in that order. -/
theorem C1_hello_route (req : Request) (hm : req.method = Method.GET)
    (hp : req.segments = splitPath "/") :
    (serve req).status = 200 ∧
      (serve req).body =
        "\x7b\"message\":\"Hello from Rust Docker container!\",\"status\":\"success\"\x7d" := by
  have hroutes : routesFilter req.segments = some helloBody := by
    rw [hp]; rfl
  refine ⟨?_, ?_⟩
  · simp [serve, hroutes, applyCors_status]
  · simp [serve, hroutes, applyCors_body]
    rfl

/-- Witness for C1 at the concrete request `GET /`. -/
theorem C1_hello_route_witness :
    (serve ⟨Method.GET, splitPath "/", "", [], ""⟩).status = 200 ∧
      (serve ⟨Method.GET, splitPath "/", "", [], ""⟩).body =
        "\x7b\"message\":\"Hello from Rust Docker container!\",\"status\":\"success\"\x7d" :=
  C1_hello_route ⟨Method.GET, splitPath "/", "", [], ""⟩ rfl rfl

/-- C2: for every request with method GET and path `/health`, the server
responds with status 200 and a body that is exactly the JSON text
`\x7b"message":"Service is healthy","status":"ok"\x7d`, keys in that
order. -/
theorem C2_health_route (req : Request) (hm : req.method = Method.GET)
    (hp : req.segments = splitPath "/health") :
    (serve req).status = 200 ∧
      (serve req).body =
        "\x7b\"message\":\"Service is healthy\",\"status\":\"ok\"\x7d" := by
  have hroutes : routesFilter req.segments = some healthBody := by
    rw [hp]; rfl
  refine ⟨?_, ?_⟩
  · simp [serve, hroutes, applyCors_status]
  · simp [serve, hroutes, applyCors_body]
    rfl

/-- Witness for C2 at the concrete request `GET /health`. -/
theorem C2_health_route_witness :
    (serve ⟨Method.GET, splitPath "/health", "", [], ""⟩).status = 200 ∧
      (serve ⟨Method.GET, splitPath "/health", "", [], ""⟩).body =
        "\x7b\"message\":\"Service is healthy\",\"status\":\"ok\"\x7d" :=
  C2_health_route ⟨Method.GET, splitPath "/health", "", [], ""⟩ rfl rfl

/-- C3: for every request with method GET and path `/api/info`, the server
responds with status 200 and a body that is exactly the JSON text
`\x7b"service":"rust-project","version":"0.1.0","description":"Rust web
service running in Docker","author":"Abdulwahed","port":8001\x7d`, keys
serialized in the order service, version, description, author, port. -/
theorem C3_info_route (req : Request) (hm : req.method = Method.GET)
    (hp : req.segments = splitPath "/api/info") :
    (serve req).status = 200 ∧
      (serve req).body =
        "\x7b\"service\":\"rust-project\",\"version\":\"0.1.0\",\"description\":\"Rust web service running in Docker\",\"author\":\"Abdulwahed\",\"port\":8001\x7d" := by
  have hroutes : routesFilter req.segments = some infoBody := by
    rw [hp]; rfl
  refine ⟨?_, ?_⟩
  · simp [serve, hroutes, applyCors_status]
  · simp [serve, hroutes, applyCors_body]
    rfl

/-- Witness for C3 at the concrete request `GET /api/info`. -/
theorem C3_info_route_witness :
    (serve ⟨Method.GET, splitPath "/api/info", "", [], ""⟩).status = 200 ∧
      (serve ⟨Method.GET, splitPath "/api/info", "", [], ""⟩).body =
        "\x7b\"service\":\"rust-project\",\"version\":\"0.1.0\",\"description\":\"Rust web service running in Docker\",\"author\":\"Abdulwahed\",\"port\":8001\x7d" :=
  C3_info_route ⟨Method.GET, splitPath "/api/info", "", [], ""⟩ rfl rfl

/-- C4 (code bug evaluation): the claim says a non-GET request to a route
path gets 404, but the source installs no method filter, so `POST /health`
is answered 200 with the health body. -/
theorem C4_post_health_eval :
    (serve ⟨Method.POST, splitPath "/health", "", [], ""⟩).status = 200 ∧
      (serve ⟨Method.POST, splitPath "/health", "", [], ""⟩).body =
        "\x7b\"message\":\"Service is healthy\",\"status\":\"ok\"\x7d" :=
  ⟨rfl, rfl⟩

/-- C5 (code bug evaluation): the claim says a path with extra trailing
segments such as `/health/extra` gets 404, but `warp::path("health")` is
used without `path::end()` and matches the prefix, so `GET /health/extra`
is answered 200 with the health body. -/
theorem C5_health_extra_eval :
    (serve ⟨Method.GET, splitPath "/health/extra", "", [], ""⟩).status = 200 ∧
      (serve ⟨Method.GET, splitPath "/health/extra", "", [], ""⟩).body =
        "\x7b\"message\":\"Service is healthy\",\"status\":\"ok\"\x7d" :=
  ⟨rfl, rfl⟩

/-- C6 counterexample: a `GET /` request carrying no `Origin` header is
answered without any `access-control-allow-origin` header, refuting that a
CORS allow-all header is present whether or not the request carries an
Origin header. -/
theorem C6_no_origin_no_cors :
    getHeader "access-control-allow-origin"
      (serve ⟨Method.GET, splitPath "/", "", [], ""⟩).headers = none :=
  rfl

/-- C6 (amended): for every request matched by one of the three routes that
carries an `origin` header, the response contains an
`access-control-allow-origin` header permitting that origin (echoing it,
which allows any origin). -/
theorem C6_cors_with_origin (req : Request) (o : String)
    (hmatch : (routesFilter req.segments).isSome = true)
    (ho : getHeader "origin" req.headers = some o) :
    getHeader "access-control-allow-origin" (serve req).headers = some o := by
  cases hr : routesFilter req.segments with
  | none => rw [hr] at hmatch; simp at hmatch
  | some body =>
      simp only [serve, hr, ho, applyCors]
      rfl

/-- Witness for C6 (amended) at `GET /health` with an Origin header. -/
theorem C6_cors_with_origin_witness :
    getHeader "access-control-allow-origin"
      (serve ⟨Method.GET, splitPath "/health", "",
        [("origin", "http://example.com")], ""⟩).headers
      = some "http://example.com" :=
  C6_cors_with_origin
    ⟨Method.GET, splitPath "/health", "", [("origin", "http://example.com")], ""⟩
    "http://example.com" rfl rfl

/-- C7: in any trace of requests processed by the (stateless) server, two
identical requests at positions `i` and `j` receive byte-identical response
bodies: no counter, timestamp or other state influences the body. -/
theorem C7_idempotent (rs : List Request) (i j : Nat)
    (h : rs[i]? = rs[j]?) :
    ((processRequests () rs)[i]?).map Response.body
      = ((processRequests () rs)[j]?).map Response.body := by
  rw [processRequests_get, processRequests_get, h]

/-- Witness for C7: a three-request trace repeating `GET /health` at
positions 0 and 2 yields equal bodies there. -/
theorem C7_idempotent_witness :
    ((processRequests ()
        [ ⟨Method.GET, ["health"], "", [], ""⟩
        , ⟨Method.GET, [], "", [], ""⟩
        , ⟨Method.GET, ["health"], "", [], ""⟩ ])[0]?).map Response.body
      = ((processRequests ()
        [ ⟨Method.GET, ["health"], "", [], ""⟩
        , ⟨Method.GET, [], "", [], ""⟩
        , ⟨Method.GET, ["health"], "", [], ""⟩ ])[2]?).map Response.body :=
  C7_idempotent
    [ ⟨Method.GET, ["health"], "", [], ""⟩
    , ⟨Method.GET, [], "", [], ""⟩
    , ⟨Method.GET, ["health"], "", [], ""⟩ ] 0 2 rfl

/-- C8: the bound socket address is the compiled-in constant
`0.0.0.0:8001`, independent of the process environment and the command
line, neither of which `main` reads. -/
theorem C8_bind_config (env env2 : List (String × String))
    (argv argv2 : List String) :
    bindAddr env argv = ((0, 0, 0, 0), 8001) ∧
      bindAddr env argv = bindAddr env2 argv2 :=
  ⟨rfl, rfl⟩

/-- C9 counterexample: the startup banner is not two lines long (`main`
issues five `println!` calls before serving). -/
theorem C9_banner_not_two_lines : ¬ startupBanner.length = 2 := by
  decide

/-- C9 (amended): at startup the program writes five banner lines to
standard output — an address line announcing `0.0.0.0:8001`, an
`Endpoints:` header and one line per endpoint path — and the per-request
step has no side effect: it returns the server state unchanged and produces
only the response. -/
theorem C9_banner_five_lines :
    startupBanner.length = 5 ∧
      startupBanner[0]? = some "🚀 Server starting on http://0.0.0.0:8001" ∧
      startupBanner[2]? = some "   GET /        - Welcome message" ∧
      startupBanner[3]? = some "   GET /health  - Health check" ∧
      startupBanner[4]? = some "   GET /api/info - Service information" ∧
      ∀ (s : Unit) (req : Request), (serverStep s req).1 = s :=
  ⟨rfl, rfl, rfl, rfl, rfl, fun _ _ => rfl⟩

/-- C10: for requests matched by one of the three routes, the response
status and body are a function of the request path alone — two matched
requests with the same path segments get the same status and body whatever
their methods, headers, query strings or bodies. -/
theorem C10_path_only (r1 r2 : Request)
    (hseg : r1.segments = r2.segments)
    (hmatch : (routesFilter r1.segments).isSome = true) :
    (serve r1).status = (serve r2).status ∧
      (serve r1).body = (serve r2).body := by
  cases hr : routesFilter r1.segments with
  | none => rw [hr] at hmatch; simp at hmatch
  | some body =>
      have hr2 : routesFilter r2.segments = some body := by
        rw [← hseg]; exact hr
      refine ⟨?_, ?_⟩
      · simp [serve, hr, hr2, applyCors_status]
      · simp [serve, hr, hr2, applyCors_body]

/-- Witness for C10: `GET /health` with no headers and `POST /health` with
a query string, an Origin header and a body get the same status and
body. -/
theorem C10_path_only_witness :
    (serve ⟨Method.GET, ["health"], "", [], ""⟩).status
        = (serve ⟨Method.POST, ["health"], "a=1",
            [("origin", "http://x")], "payload"⟩).status ∧
      (serve ⟨Method.GET, ["health"], "", [], ""⟩).body
        = (serve ⟨Method.POST, ["health"], "a=1",
            [("origin", "http://x")], "payload"⟩).body :=
  C10_path_only
    ⟨Method.GET, ["health"], "", [], ""⟩
    ⟨Method.POST, ["health"], "a=1", [("origin", "http://x")], "payload"⟩
    rfl rfl

end RustProject
